import Mathlib

/-!
Shallow embedding of the DiabetesAI glucose subsystem:
`services/diabetic_service.py`, `services/glucose_forecast_service.py`,
and `backend/glucose_api.py`.

Modelling conventions:
* Python floats are modelled as `ℚ` (all spec-relevant arithmetic is exact
  decimal arithmetic).
* Timestamps (`datetime`) are modelled as `ℤ`, measured in minutes;
  `timedelta(minutes = m)` becomes integer addition.
* Raised exceptions (`HTTPException`, `ValueError`, `FileNotFoundError`,
  `IndexError`) are modelled by `Except ApiError`, with structured error
  constructors carrying the same data the Python messages interpolate.
* The Keras model and the sklearn scaler are opaque artifacts: they are
  modelled as function parameters `predict : List ℚ → List ℚ` (the already
  flattened output of `model.predict`, since `reshape(-1)` on our list model
  is the identity) and `scaler : ℚ → ℚ` (a `StandardScaler` on a single
  feature column acts elementwise).
-/

/-- Errors raised by the embedded code paths.  Each constructor corresponds to
one `raise` site in the Python source and carries the data interpolated into
the corresponding message. -/
inductive ApiError where
  /-- `glucose_api._parse_csv_upload`: missing required CSV columns. -/
  | missingColumns (cols : List String)
  /-- `glucose_api._parse_csv_upload`: more than one distinct patient_id. -/
  | multiplePatients (found : List String)
  /-- `glucose_api._parse_csv_upload`: more than one distinct session_id. -/
  | multipleSessions (found : List String)
  /-- `glucose_api._parse_csv_upload`: fewer than `lookback` rows remain. -/
  | insufficientPoints (required : Nat) (got : Nat)
  /-- `glucose_api._build_dashboard_payload`: "CSV muito curto". -/
  | csvTooShort (lookback : Nat)
  /-- Python `IndexError` (e.g. `iloc[0]` on an empty frame). -/
  | indexError
  /-- `GlucoseForecastService._prepare_input`: context length mismatch. -/
  | shapeErrorInput (expectedLookback : Nat) (got : Nat)
  /-- `GlucoseForecastService._normalize_model_output`: output size mismatch. -/
  | shapeErrorOutput (got : Nat) (expected : Nat)
  deriving DecidableEq, Repr

/-- `ForecastConfig` dataclass from `glucose_forecast_service.py`. -/
structure ForecastConfig where
  freq_min : ℤ
  lookback : Nat
  offsets : List ℤ
  target : String := "glucose"
  units : String := "mg/dL"
  deriving DecidableEq, Repr

/-- `ForecastPoint` dataclass: timestamp in minutes, value in mg/dL. -/
structure ForecastPoint where
  timestamp : ℤ
  value_mg_dl : ℚ
  ahead_min : ℤ
  deriving DecidableEq, Repr

/-- `ForecastOutput` dataclass. -/
structure ForecastOutput where
  anchor_time : ℤ
  config : ForecastConfig
  predicted : List ForecastPoint
  deriving DecidableEq, Repr

/-! ## GlucoseForecastService -/

/-- `GlucoseForecastService._prepare_input`: checks
`len(ctx_values_mg_dl) != lookback` and otherwise applies the scaler's
forward transform to the context column (the `(−1,1)`/`(1,CTX,1)` reshapes
are identities on the list model). -/
def prepare_input (ctx_values_mg_dl : List ℚ) (lookback : Nat)
    (scaler : ℚ → ℚ) : Except ApiError (List ℚ) :=
  if ctx_values_mg_dl.length ≠ lookback then
    .error (.shapeErrorInput lookback ctx_values_mg_dl.length)
  else
    .ok (ctx_values_mg_dl.map scaler)

/-- `GlucoseForecastService._normalize_model_output`: flattens the raw model
output (identity on lists) and checks its length against the configured
offset count. -/
def normalize_model_output (y_pred : List ℚ) (expected_len : Nat) :
    Except ApiError (List ℚ) :=
  if y_pred.length ≠ expected_len then
    .error (.shapeErrorOutput y_pred.length expected_len)
  else
    .ok y_pred

/-- `GlucoseForecastService.forecast_from_anchor`.  `predict` stands for the
loaded model's `predict` (already flattened) and `scaler` for the loaded
scaler's elementwise forward transform; the bundle load itself is modelled
separately (registry state machine below). -/
def forecast_from_anchor (predict : List ℚ → List ℚ) (scaler : ℚ → ℚ)
    (cfg : ForecastConfig) (anchor_time : ℤ) (ctx_values_mg_dl : List ℚ) :
    Except ApiError ForecastOutput :=
  match prepare_input ctx_values_mg_dl cfg.lookback scaler with
  | .error e => .error e
  | .ok x =>
    match normalize_model_output (predict x) cfg.offsets.length with
    | .error e => .error e
    | .ok y =>
      let predicted := (cfg.offsets.zip y).map (fun p =>
        let ahead_min := cfg.freq_min * p.1
        { timestamp := anchor_time + ahead_min
          value_mg_dl := p.2
          ahead_min := ahead_min : ForecastPoint })
      .ok { anchor_time := anchor_time, config := cfg, predicted := predicted }

/-! ## DiabeticService -/

/-- The metrics dict returned by
`DiabeticService._compute_glycemic_metrics`; every key is always present,
fields other than `count` may hold `None`. -/
structure GlycemicMetrics where
  count : Nat
  tir_pct : Option ℚ
  tar_pct : Option ℚ
  tbr_pct : Option ℚ
  avg_mg_dl : Option ℚ
  min_mg_dl : Option ℚ
  max_mg_dl : Option ℚ
  deriving DecidableEq, Repr

/-- The all-`None` metrics dict returned on empty / all-null input. -/
def emptyMetrics : GlycemicMetrics :=
  { count := 0, tir_pct := none, tar_pct := none, tbr_pct := none
    avg_mg_dl := none, min_mg_dl := none, max_mg_dl := none }

/-- Floor of a rational, computed on the normalized numerator/denominator so
that kernel reduction (`decide`) can evaluate it. -/
def ratFloor (q : ℚ) : ℤ := q.num.fdiv q.den

/-- Python `round(x, 2)` on our exact-rational model: round half to even at
the second decimal place. -/
def pyRound2 (q : ℚ) : ℚ :=
  let scaled := q * 100
  let f : ℤ := ratFloor scaled
  let r : ℚ := scaled - f
  let n : ℤ :=
    if r < 1/2 then f
    else if 1/2 < r then f + 1
    else if f % 2 = 0 then f else f + 1
  (n : ℚ) / 100

/-- `DiabeticService._compute_glycemic_metrics`.  A reading is the
`value_mg_dl` entry of one `glucose_readings` dict; `none` models a missing
or `None` value (dropped by the list comprehension). -/
def compute_glycemic_metrics (glucose_readings : List (Option ℚ)) :
    GlycemicMetrics :=
  if glucose_readings.isEmpty then emptyMetrics
  else
    let values := glucose_readings.filterMap id
    if values.isEmpty then emptyMetrics
    else
      let total := values.length
      let tir := values.countP (fun v => decide (70 ≤ v ∧ v ≤ 180))
      let tar := values.countP (fun v => decide (180 < v))
      let tbr := values.countP (fun v => decide (v < 70))
      let avg := values.sum / total
      { count := total
        tir_pct := some (pyRound2 ((tir : ℚ) / total * 100))
        tar_pct := some (pyRound2 ((tar : ℚ) / total * 100))
        tbr_pct := some (pyRound2 ((tbr : ℚ) / total * 100))
        avg_mg_dl := some (pyRound2 avg)
        min_mg_dl := values.min?
        max_mg_dl := values.max? }

/-- Alert string appended when `tbr_pct > 5`. -/
def alertHypoRisk : String :=
  "Risco de hipoglicemia: tempo abaixo da faixa alvo elevado."

/-- Alert string appended when `tar_pct > 25`. -/
def alertHyperRisk : String :=
  "Risco de hiperglicemia: tempo acima da faixa alvo elevado."

/-- Alert string appended when `max_mg_dl > 250` (mojibake as in source). -/
def alertPeak : String :=
  "Pico glicÃªmico alto identificado (>250 mg/dL)."

/-- Alert string appended when `min_mg_dl < 60`. -/
def alertCriticalLow : String :=
  "Leitura muito baixa identificada (<60 mg/dL)."

/-- Python `x is not None and c < x` on an optional metric. -/
def optGt (x : Option ℚ) (c : ℚ) : Bool :=
  match x with
  | some v => decide (c < v)
  | none => false

/-- Python `x is not None and x < c` on an optional metric. -/
def optLt (x : Option ℚ) (c : ℚ) : Bool :=
  match x with
  | some v => decide (v < c)
  | none => false

/-- `DiabeticService._generate_alerts`: sequentially appends the four alert
strings under their threshold conditions (`x is not None and x ⋖ c`). -/
def generate_alerts (metrics : GlycemicMetrics) : List String :=
  let alerts : List String := []
  let alerts := if optGt metrics.tbr_pct 5 then alerts ++ [alertHypoRisk] else alerts
  let alerts := if optGt metrics.tar_pct 25 then alerts ++ [alertHyperRisk] else alerts
  let alerts := if optGt metrics.max_mg_dl 250 then alerts ++ [alertPeak] else alerts
  let alerts := if optLt metrics.min_mg_dl 60 then alerts ++ [alertCriticalLow] else alerts
  alerts

/-- `DiabeticService.analyze`: metrics plus alerts. -/
def diabetic_analyze (glucose_readings : List (Option ℚ)) :
    GlycemicMetrics × List String :=
  let metrics := compute_glycemic_metrics glucose_readings
  (metrics, generate_alerts metrics)

/-! ## SeriesIngestor (`glucose_api._parse_csv_upload`) -/

/-- One raw CSV row after the pandas coercions
`pd.to_datetime(..., errors="coerce")` / `pd.to_numeric(..., errors="coerce")`:
a field is `none` when the cell was missing or failed coercion (pandas `NaT`
or `NaN`). The four required columns are present by construction of this
record (the missing-columns check precedes any row processing). -/
structure RawRow where
  timestamp : Option ℤ
  glucose : Option ℚ
  patient_id : Option String
  session_id : Option String
  deriving DecidableEq, Repr

/-- A row surviving `df.dropna(subset=["timestamp", "glucose"])`. -/
structure CleanRow where
  timestamp : ℤ
  glucose : ℚ
  patient_id : Option String
  session_id : Option String
  deriving DecidableEq, Repr

/-- `df.dropna(subset=["timestamp", "glucose"])`: keep the rows whose
timestamp and glucose both coerced successfully. -/
def dropnaRows (rows : List RawRow) : List CleanRow :=
  rows.filterMap (fun r =>
    match r.timestamp, r.glucose with
    | some t, some g => some { timestamp := t, glucose := g
                               patient_id := r.patient_id
                               session_id := r.session_id }
    | _, _ => none)

/-- Comparison key of `df.sort_values("timestamp")`. -/
def leTs (a b : CleanRow) : Bool := decide (a.timestamp ≤ b.timestamp)

/-- `df.drop_duplicates(subset=["timestamp"], keep="last")`: a row is kept
iff no later row (in the current frame order) carries the same timestamp. -/
def dropDupKeepLast : List CleanRow → List CleanRow
  | [] => []
  | a :: rest =>
      if rest.any (fun b => b.timestamp == a.timestamp) then
        dropDupKeepLast rest
      else
        a :: dropDupKeepLast rest

/-- The contract pandas documents for `df.sort_values("timestamp")` with the
default `kind='quicksort'`: the output is a permutation of the rows ordered
by the timestamp key.  Quicksort is NOT stable, so the relative order of
rows with equal timestamps is unspecified — any permutation satisfying this
predicate is an admissible result. -/
def isSortValuesOutput (input output : List CleanRow) : Prop :=
  output.Perm input
  ∧ output.Pairwise (fun a b => a.timestamp ≤ b.timestamp)

/-- `glucose_api._parse_csv_upload`, after the missing-columns check: drop
uncoercible rows, require a single patient_id and a single session_id among
the non-null ones (pandas `dropna().unique()`), sort by timestamp, drop
duplicate timestamps keeping the last occurrence of the sorted order, and
require at least `lookback` surviving rows.  Because the source's
`sort_values` uses the unstable default `kind='quicksort'`, the sorting
routine is a parameter `sortBy`; theorems assume only
`isSortValuesOutput` about it, so they hold for every behaviour the
program may exhibit. -/
def parse_csv_upload (sortBy : List CleanRow → List CleanRow)
    (rows : List RawRow) (lookback : Nat) :
    Except ApiError (List CleanRow) :=
  let df := dropnaRows rows
  let patient_ids := (df.filterMap (·.patient_id)).dedup
  if patient_ids.length ≠ 1 then .error (.multiplePatients patient_ids)
  else
    let session_ids := (df.filterMap (·.session_id)).dedup
    if session_ids.length ≠ 1 then .error (.multipleSessions session_ids)
    else
      let sorted := dropDupKeepLast (sortBy df)
      if sorted.length < lookback then
        .error (.insufficientPoints lookback sorted.length)
      else
        .ok sorted

/-! ## DashboardAssembler (`glucose_api._build_dashboard_payload`) -/

/-- Python `max(offsets)`; the Python call raises on an empty list, the
theorems below therefore carry `offsets ≠ []` where it matters. -/
def maxOffset (offsets : List ℤ) : ℤ := (offsets.max?).getD 0

/-- Anchor selection, lines 94-101 of `glucose_api.py`:
`anchor_idx = len(df) - 1 - max(offsets)`; if that is `< lookback - 1`, fall
back to `len(df) - 1`, and raise "CSV muito curto" when the fallback index is
`< lookback` (note: the source compares against `lookback`, not
`lookback - 1`).  Computed in `ℤ`, as Python ints do not truncate. -/
def anchorIdx (cfg : ForecastConfig) (n : Nat) : Except ApiError ℤ :=
  let anchor_idx : ℤ := (n : ℤ) - 1 - maxOffset cfg.offsets
  if anchor_idx < (cfg.lookback : ℤ) - 1 then
    let fallback_idx : ℤ := (n : ℤ) - 1
    if fallback_idx < (cfg.lookback : ℤ) then .error (.csvTooShort cfg.lookback)
    else .ok fallback_idx
  else .ok anchor_idx

/-- `glucose_api._compute_trend`. -/
def compute_trend (values : List ℚ) : String :=
  if values.length < 2 then "stable"
  else
    let delta := values.getLastD 0 - values.headD 0
    if |delta| < 5 then "stable"
    else if 0 < delta then "rising" else "falling"

/-- Python `str(x)` on an optional CSV cell (`str(None) = "None"`). -/
def pyStr (s : Option String) : String := s.getD "None"

/-- Python `x or 0`-style reading of a possibly-`None` metric.  In
`_build_dashboard_payload` the average is `None` only when no observed
point fell in the chart window, in which case the Python would raise
`TypeError` on `avg_recent > 0`; that state is unreachable for the
configurations the claims quantify over (the anchor row itself is always in
the window), so the model maps `None` to `0`. -/
def pyNum (q : Option ℚ) : ℚ := q.getD 0

/-- One entry of the dashboard `points` list. -/
structure ChartPoint where
  timestamp : ℤ
  value_mg_dl : ℚ
  ptype : String
  deriving DecidableEq, Repr

/-- Prediction alert appended when some predicted value is `< 70`. -/
def alertPredHypo : String :=
  "Previsão indica risco de hipoglicemia (<70 mg/dL)."

/-- Prediction alert appended when some predicted value is `> 250`. -/
def alertPredPeak : String :=
  "Previsão indica possível pico glicêmico (>250 mg/dL)."

/-- The dict returned by `_build_dashboard_payload`.  `observedPoints` and
`predictedPoints` surface the two local lists whose concatenation is the
`points` entry. -/
structure DashboardPayload where
  patient_id : String
  session_id : String
  anchor_time : ℤ
  observedPoints : List ChartPoint
  predictedPoints : List ChartPoint
  points : List ChartPoint
  stats_tir : Option ℚ
  stats_tar : Option ℚ
  stats_tbr : Option ℚ
  stats_average : Option ℚ
  stats_count : Nat
  card_current_mg_dl : ℚ
  card_average_mg_dl : ℚ
  card_estimated_hba1c_pct : ℚ
  card_trend : String
  alerts : List String
  deriving DecidableEq, Repr

/-- Python `ctx_values[-5:]`. -/
def lastN (n : Nat) (l : List ℚ) : List ℚ := l.drop (l.length - n)

/-- The pure assembly tail of `glucose_api._build_dashboard_payload`: given
the parsed frame `df` with first row `r0`, the resolved anchor index `ai`
and the forecast result `fc`, build the payload dict.  Factored out of
`build_dashboard_payload` so the success case is a first-class value. -/
def assemble_payload (cfg : ForecastConfig) (df : List CleanRow)
    (r0 : CleanRow) (ai : Nat) (fc : ForecastOutput) : DashboardPayload :=
  let max_off := maxOffset cfg.offsets
  let anchorRow := df.getD ai r0
  let anchor_time := anchorRow.timestamp
  let current_value := anchorRow.glucose
  let ctx_values := ((df.drop (ai + 1 - cfg.lookback)).take cfg.lookback).map
    (·.glucose)
  let chart_start := anchor_time - 60
  let chart_end := anchor_time + cfg.freq_min * max_off
  let chart_df := df.filter (fun r =>
    decide (chart_start ≤ r.timestamp) && decide (r.timestamp ≤ chart_end))
  let observed_points := chart_df.map (fun r =>
    { timestamp := r.timestamp, value_mg_dl := r.glucose
      ptype := "observed" : ChartPoint })
  let connector : ChartPoint :=
    { timestamp := anchor_time, value_mg_dl := current_value
      ptype := "predicted" }
  let predicted_points := connector :: fc.predicted.map (fun p =>
    { timestamp := p.timestamp, value_mg_dl := p.value_mg_dl
      ptype := "predicted" : ChartPoint })
  let analysis := diabetic_analyze (observed_points.map (fun p =>
    some p.value_mg_dl))
  let metrics := analysis.1
  let avg_recent := metrics.avg_mg_dl
  let hba1c : ℚ :=
    if 0 < pyNum avg_recent then (pyNum avg_recent + 46.7) / 28.7 else 0
  let trend := compute_trend (lastN 5 ctx_values)
  let pred_values := predicted_points.map (·.value_mg_dl)
  let alerts :=
    (if pred_values.any (fun v => decide (v < 70)) then [alertPredHypo] else [])
    ++ (if pred_values.any (fun v => decide (250 < v)) then [alertPredPeak] else [])
    ++ analysis.2
  { patient_id := pyStr r0.patient_id
    session_id := pyStr r0.session_id
    anchor_time := anchor_time
    observedPoints := observed_points
    predictedPoints := predicted_points
    points := observed_points ++ predicted_points
    stats_tir := metrics.tir_pct
    stats_tar := metrics.tar_pct
    stats_tbr := metrics.tbr_pct
    stats_average := metrics.avg_mg_dl
    stats_count := metrics.count
    card_current_mg_dl := pyRound2 current_value
    card_average_mg_dl := pyRound2 (pyNum avg_recent)
    card_estimated_hba1c_pct := pyRound2 hba1c
    card_trend := trend
    alerts := alerts }

/-- `glucose_api._build_dashboard_payload` on a parsed frame.  The gateway's
`diabetic_analyze` has no `DIABETIC_SERVICE_URL` set in the core deployment
and routes to the local `DiabeticService.analyze`.  Slice indices are guarded
non-negative on every reachable path (`lookback >= 1`), so the `Int.toNat`
coercions agree with Python indexing.  The context slice is
`df.iloc[anchor_idx - lookback + 1 : anchor_idx + 1]` and the context values
feed both the forecast and (last five) the trend rule. -/
def build_dashboard_payload (predict : List ℚ → List ℚ) (scaler : ℚ → ℚ)
    (cfg : ForecastConfig) (df : List CleanRow) :
    Except ApiError DashboardPayload :=
  match df with
  | [] => .error .indexError
  | r0 :: _ =>
    match anchorIdx cfg df.length with
    | .error e => .error e
    | .ok a =>
      let ai : Nat := a.toNat
      let anchorRow := df.getD ai r0
      let anchor_time := anchorRow.timestamp
      let ctx_values := ((df.drop (ai + 1 - cfg.lookback)).take cfg.lookback).map
        (·.glucose)
      match forecast_from_anchor predict scaler cfg anchor_time ctx_values with
      | .error e => .error e
      | .ok fc => .ok (assemble_payload cfg df r0 ai fc)

/-- The upload endpoint's core pipeline (`upload_glucose_session` before
persistence): parse the CSV, then assemble the dashboard. -/
def upload_glucose_session (predict : List ℚ → List ℚ) (scaler : ℚ → ℚ)
    (sortBy : List CleanRow → List CleanRow) (cfg : ForecastConfig)
    (rows : List RawRow) : Except ApiError DashboardPayload :=
  match parse_csv_upload sortBy rows cfg.lookback with
  | .error e => .error e
  | .ok df => build_dashboard_payload predict scaler cfg df

/-! ## ForecastModelRegistry (`GlucoseForecastService._load_bundle`)

The cached artifacts live in the class attributes `_model`, `_scaler`,
`_config`, each guarded only by a `None`-check followed by an assignment —
there is no lock anywhere in `glucose_forecast_service.py`.  The state
machine below models two concurrent callers running the `_model` branch of
`_load_bundle` (the `_scaler` and `_config` branches are syntactically
identical).  Each caller atomically (a) reads `_model` and branches, then
(b) performs the load and the assignment; the load itself (file I/O inside
`tf.keras.models.load_model`) releases the interpreter lock, so the two
phases of different callers interleave freely. -/

/-- Program counter of one caller inside `_load_bundle`. -/
inductive ThreadPC where
  /-- About to evaluate `if GlucoseForecastService._model is None`. -/
  | start
  /-- Observed `None` and is now inside `tf.keras.models.load_model`. -/
  | loading
  /-- Returned from `_load_bundle`. -/
  | done
  deriving DecidableEq, Repr

/-- Shared registry state plus the two callers' program counters.
`loadCount` counts completed artifact loads. -/
structure RegistryState where
  modelCached : Bool
  loadCount : Nat
  pc1 : ThreadPC
  pc2 : ThreadPC
  deriving DecidableEq, Repr

/-- Interleaved small-step semantics of two callers in `_load_bundle`. -/
inductive RegistryStep : RegistryState → RegistryState → Prop where
  | check1_hit (s : RegistryState) : s.pc1 = .start → s.modelCached = true →
      RegistryStep s { s with pc1 := .done }
  | check1_miss (s : RegistryState) : s.pc1 = .start → s.modelCached = false →
      RegistryStep s { s with pc1 := .loading }
  | load1 (s : RegistryState) : s.pc1 = .loading →
      RegistryStep s
        { s with pc1 := .done, modelCached := true
                 loadCount := s.loadCount + 1 }
  | check2_hit (s : RegistryState) : s.pc2 = .start → s.modelCached = true →
      RegistryStep s { s with pc2 := .done }
  | check2_miss (s : RegistryState) : s.pc2 = .start → s.modelCached = false →
      RegistryStep s { s with pc2 := .loading }
  | load2 (s : RegistryState) : s.pc2 = .loading →
      RegistryStep s
        { s with pc2 := .done, modelCached := true
                 loadCount := s.loadCount + 1 }

/-- Both callers arrive before the first successful load. -/
def registryInit : RegistryState :=
  { modelCached := false, loadCount := 0, pc1 := .start, pc2 := .start }

/-- States reachable from `registryInit` by interleaving the two callers. -/
def registryReachable (s : RegistryState) : Prop :=
  Relation.ReflTransGen RegistryStep registryInit s

/-! ## Theorems -/

/-! ## Theorems -/

/-- C5: `GlycemicStatsEngine.compute` applied to an empty reading list, or to
a list in which every reading's `value_mg_dl` is null, returns `count = 0`
and `tir_pct`, `tar_pct`, `tbr_pct`, `avg_mg_dl`, `min_mg_dl`, `max_mg_dl`
all equal to `None`. -/
theorem compute_metrics_empty_or_all_null (glucose_readings : List (Option ℚ))
    (h : ∀ r ∈ glucose_readings, r = none) :
    compute_glycemic_metrics glucose_readings =
      { count := 0, tir_pct := none, tar_pct := none, tbr_pct := none
        avg_mg_dl := none, min_mg_dl := none, max_mg_dl := none } := by
  unfold compute_glycemic_metrics
  rcases glucose_readings with _ | ⟨a, l⟩
  · simp [emptyMetrics]
  · have hnil : (a :: l).filterMap id = [] := by
      rw [List.filterMap_eq_nil_iff]
      intro x hx
      exact h x hx
    simp [hnil, emptyMetrics]

/-- Witness for `compute_metrics_empty_or_all_null` at the concrete all-null
list `[none, none]`. -/
theorem compute_metrics_empty_or_all_null_witness :
    (∀ r ∈ ([none, none] : List (Option ℚ)), r = none)
    ∧ compute_glycemic_metrics [none, none] =
      { count := 0, tir_pct := none, tar_pct := none, tbr_pct := none
        avg_mg_dl := none, min_mg_dl := none, max_mg_dl := none } :=
  ⟨by simp, compute_metrics_empty_or_all_null [none, none] (by simp)⟩

/-- C6: for every non-empty set of valid readings the metrics classify each
value as in-range when `70 ≤ v ≤ 180`, above-range when `v > 180`,
below-range when `v < 70`, report each class as a percentage of the valid
readings rounded to 2 decimals, and report the arithmetic mean rounded to 2
decimals; in particular for readings `[50, 75, 100, 200]` the result is
`tir_pct = 50.0`, `tbr_pct = 25.0`, `tar_pct = 25.0`,
`avg_mg_dl = 106.25`. -/
theorem compute_metrics_classification (glucose_readings : List (Option ℚ))
    (hne : glucose_readings.filterMap id ≠ []) :
    (let values := glucose_readings.filterMap id
     (compute_glycemic_metrics glucose_readings).count = values.length
     ∧ (compute_glycemic_metrics glucose_readings).tir_pct =
        some (pyRound2
          (((values.filter (fun v => decide (70 ≤ v ∧ v ≤ 180))).length : ℚ) /
            values.length * 100))
     ∧ (compute_glycemic_metrics glucose_readings).tar_pct =
        some (pyRound2
          (((values.filter (fun v => decide (180 < v))).length : ℚ) /
            values.length * 100))
     ∧ (compute_glycemic_metrics glucose_readings).tbr_pct =
        some (pyRound2
          (((values.filter (fun v => decide (v < 70))).length : ℚ) /
            values.length * 100))
     ∧ (compute_glycemic_metrics glucose_readings).avg_mg_dl =
        some (pyRound2 (values.sum / values.length)))
    ∧ compute_glycemic_metrics [some 50, some 75, some 100, some 200] =
      { count := 4, tir_pct := some 50, tar_pct := some 25
        tbr_pct := some 25, avg_mg_dl := some 106.25
        min_mg_dl := some 50, max_mg_dl := some 200 } := by
  constructor
  · have hr : ¬ glucose_readings.isEmpty := by
      rcases glucose_readings with _ | ⟨a, l⟩
      · simp at hne
      · simp
    simp only [compute_glycemic_metrics, hr, if_false, Bool.false_eq_true]
    rw [if_neg (by simpa using hne)]
    refine ⟨rfl, ?_, ?_, ?_, rfl⟩ <;>
      simp [List.countP_eq_length_filter]
  · with_unfolding_all rfl

/-- Witness for `compute_metrics_classification` at the concrete reading
list of the claim. -/
theorem compute_metrics_classification_witness :
    ([some 50, some 75, some 100, some 200] : List (Option ℚ)).filterMap id ≠ []
    ∧ compute_glycemic_metrics [some 50, some 75, some 100, some 200] =
      { count := 4, tir_pct := some 50, tar_pct := some 25
        tbr_pct := some 25, avg_mg_dl := some 106.25
        min_mg_dl := some 50, max_mg_dl := some 200 } :=
  ⟨by decide,
   (compute_metrics_classification [some 50, some 75, some 100, some 200]
      (by decide)).2⟩

/-- `optGt x c` holds exactly on non-null values exceeding `c`. -/
theorem optGt_iff (x : Option ℚ) (c : ℚ) :
    optGt x c = true ↔ ∃ v, x = some v ∧ c < v := by
  cases x <;> simp [optGt]

/-- `optLt x c` holds exactly on non-null values below `c`. -/
theorem optLt_iff (x : Option ℚ) (c : ℚ) :
    optLt x c = true ↔ ∃ v, x = some v ∧ v < c := by
  cases x <;> simp [optLt]

/-- C7: `generate_alerts` emits the hypoglycemia-risk alert exactly when
`tbr_pct > 5`, the hyperglycemia-risk alert exactly when `tar_pct > 25`, the
acute-peak alert exactly when `max_mg_dl > 250`, and the critical-low alert
exactly when `min_mg_dl < 60` (strict comparisons, null metrics emitting
nothing); for readings `[50, 75, 100, 200]` the alerts include the
critical-low alert and exclude the hyperglycemia-risk alert because
`tar_pct` is exactly 25. -/
theorem generate_alerts_thresholds (metrics : GlycemicMetrics) :
    (alertHypoRisk ∈ generate_alerts metrics ↔
      ∃ t, metrics.tbr_pct = some t ∧ 5 < t)
    ∧ (alertHyperRisk ∈ generate_alerts metrics ↔
      ∃ t, metrics.tar_pct = some t ∧ 25 < t)
    ∧ (alertPeak ∈ generate_alerts metrics ↔
      ∃ t, metrics.max_mg_dl = some t ∧ 250 < t)
    ∧ (alertCriticalLow ∈ generate_alerts metrics ↔
      ∃ t, metrics.min_mg_dl = some t ∧ t < 60)
    ∧ alertCriticalLow ∈ generate_alerts
        (compute_glycemic_metrics [some 50, some 75, some 100, some 200])
    ∧ alertHyperRisk ∉ generate_alerts
        (compute_glycemic_metrics [some 50, some 75, some 100, some 200]) := by
  have e1 : alertHypoRisk ≠ alertHyperRisk := by decide
  have e2 : alertHypoRisk ≠ alertPeak := by decide
  have e3 : alertHypoRisk ≠ alertCriticalLow := by decide
  have e4 : alertHyperRisk ≠ alertPeak := by decide
  have e5 : alertHyperRisk ≠ alertCriticalLow := by decide
  have e6 : alertPeak ≠ alertCriticalLow := by decide
  have hex : generate_alerts
      (compute_glycemic_metrics [some 50, some 75, some 100, some 200]) =
      [alertHypoRisk, alertCriticalLow] := by with_unfolding_all rfl
  have e1s : alertHyperRisk ≠ alertHypoRisk := e1.symm
  have e2s : alertPeak ≠ alertHypoRisk := e2.symm
  have e3s : alertCriticalLow ≠ alertHypoRisk := e3.symm
  have e4s : alertPeak ≠ alertHyperRisk := e4.symm
  have e5s : alertCriticalLow ≠ alertHyperRisk := e5.symm
  have e6s : alertCriticalLow ≠ alertPeak := e6.symm
  refine ⟨?_, ?_, ?_, ?_, by rw [hex]; simp, by rw [hex]; simp [e1s, e5]⟩
  · simp only [generate_alerts]
    split_ifs <;> simp_all [optGt_iff, optLt_iff]
  · simp only [generate_alerts]
    split_ifs <;> simp_all [optGt_iff, optLt_iff]
  · simp only [generate_alerts]
    split_ifs <;> simp_all [optGt_iff, optLt_iff]
  · simp only [generate_alerts]
    split_ifs <;> simp_all [optGt_iff, optLt_iff]

/-- Normal form of a successful `forecast_from_anchor` run: with a context of
the configured length and a model output of the trained length, the result is
`ok` with one point per offset, zipped in order.  Shared by the
forecast-engine and dashboard theorems. -/
theorem forecast_from_anchor_ok (predict : List ℚ → List ℚ)
    (scaler : ℚ → ℚ) (cfg : ForecastConfig) (anchor_time : ℤ) (ctx : List ℚ)
    (hctx : ctx.length = cfg.lookback)
    (hout : (predict (ctx.map scaler)).length = cfg.offsets.length) :
    forecast_from_anchor predict scaler cfg anchor_time ctx = .ok
      { anchor_time := anchor_time, config := cfg
        predicted := (cfg.offsets.zip (predict (ctx.map scaler))).map (fun p =>
          { timestamp := anchor_time + cfg.freq_min * p.1
            value_mg_dl := p.2
            ahead_min := cfg.freq_min * p.1 : ForecastPoint }) } := by
  simp only [forecast_from_anchor, prepare_input, normalize_model_output,
    hctx, hout]
  simp [hout]

/-- C2: for every anchor time and every context of length exactly
`lookback`, `forecast_from_anchor` (with the model producing its trained
output length `len(offsets)`) returns exactly `len(offsets)` points in
configured offsets order, the `i`-th having
`ahead_min = freq_min * offsets[i]` and
`timestamp = anchor_time + ahead_min` minutes; when the offsets list is
ascending, the `ahead_min` values are ascending. -/
theorem forecast_from_anchor_points (predict : List ℚ → List ℚ)
    (scaler : ℚ → ℚ) (cfg : ForecastConfig) (anchor_time : ℤ) (ctx : List ℚ)
    (hctx : ctx.length = cfg.lookback)
    (hout : (predict (ctx.map scaler)).length = cfg.offsets.length)
    (hfreq : 0 < cfg.freq_min) :
    ∃ out, forecast_from_anchor predict scaler cfg anchor_time ctx = .ok out
      ∧ out.predicted.length = cfg.offsets.length
      ∧ out.predicted.map (·.ahead_min) =
          cfg.offsets.map (fun o => cfg.freq_min * o)
      ∧ out.predicted.map (·.timestamp) =
          cfg.offsets.map (fun o => anchor_time + cfg.freq_min * o)
      ∧ (cfg.offsets.Pairwise (· < ·) →
          (out.predicted.map (·.ahead_min)).Pairwise (· < ·)) := by
  have hzip : List.map Prod.fst (cfg.offsets.zip (predict (ctx.map scaler))) =
      cfg.offsets :=
    List.map_fst_zip _ _ (le_of_eq hout.symm)
  have hahead :
      (((cfg.offsets.zip (predict (ctx.map scaler))).map (fun p =>
        { timestamp := anchor_time + cfg.freq_min * p.1
          value_mg_dl := p.2
          ahead_min := cfg.freq_min * p.1 : ForecastPoint })).map (·.ahead_min)) =
      cfg.offsets.map (fun o => cfg.freq_min * o) := by
    rw [List.map_map]
    rw [show ((fun q : ForecastPoint => q.ahead_min) ∘ (fun p : ℤ × ℚ =>
      { timestamp := anchor_time + cfg.freq_min * p.1
        value_mg_dl := p.2
        ahead_min := cfg.freq_min * p.1 : ForecastPoint })) =
      ((fun o : ℤ => cfg.freq_min * o) ∘ Prod.fst) from rfl]
    rw [← List.map_map, hzip]
  refine ⟨_, forecast_from_anchor_ok predict scaler cfg anchor_time ctx hctx hout,
    ?_, hahead, ?_, ?_⟩
  · simp [List.length_zip, hout]
  · rw [List.map_map]
    rw [show ((fun q : ForecastPoint => q.timestamp) ∘ (fun p : ℤ × ℚ =>
      { timestamp := anchor_time + cfg.freq_min * p.1
        value_mg_dl := p.2
        ahead_min := cfg.freq_min * p.1 : ForecastPoint })) =
      ((fun o : ℤ => anchor_time + cfg.freq_min * o) ∘ Prod.fst) from rfl]
    rw [← List.map_map, hzip]
  · intro hasc
    rw [hahead]
    rw [List.pairwise_map]
    exact hasc.imp (fun hab => (mul_lt_mul_left hfreq).mpr hab)

/-- Witness for `forecast_from_anchor_points` at a concrete configuration
and context. -/
theorem forecast_from_anchor_points_witness :
    (([100, 110, 120] : List ℚ).length =
        ({ freq_min := 15, lookback := 3, offsets := [2, 4, 6] } :
          ForecastConfig).lookback)
    ∧ ∃ out, forecast_from_anchor (fun _ => [80, 90, 260]) id
        { freq_min := 15, lookback := 3, offsets := [2, 4, 6] } 0
        [100, 110, 120] = .ok out
      ∧ out.predicted.length = 3
      ∧ out.predicted.map (·.ahead_min) = [30, 60, 90]
      ∧ out.predicted.map (·.timestamp) = [30, 60, 90]
      ∧ (([2, 4, 6] : List ℤ).Pairwise (· < ·) →
          (out.predicted.map (·.ahead_min)).Pairwise (· < ·)) := by
  refine ⟨rfl, ?_⟩
  have h := forecast_from_anchor_points (fun _ => [80, 90, 260]) id
    { freq_min := 15, lookback := 3, offsets := [2, 4, 6] } 0
    [100, 110, 120] rfl rfl (by decide)
  obtain ⟨out, h1, h2, h3, h4, h5⟩ := h
  exact ⟨out, h1, h2, by rw [h3]; decide, by rw [h4]; decide, h5⟩

/-- C3: `forecast_from_anchor` fails (and fails with a shape error) iff the
context length differs from the configured lookback or the model's
flattened output length differs from `len(offsets)`; when both lengths
match, neither error branch is reachable and a `ForecastOutput` is
returned. -/
theorem forecast_from_anchor_shape_iff (predict : List ℚ → List ℚ)
    (scaler : ℚ → ℚ) (cfg : ForecastConfig) (anchor_time : ℤ) (ctx : List ℚ) :
    ((∃ e, forecast_from_anchor predict scaler cfg anchor_time ctx = .error e)
      ↔ (ctx.length ≠ cfg.lookback ∨
          (predict (ctx.map scaler)).length ≠ cfg.offsets.length))
    ∧ (ctx.length ≠ cfg.lookback →
        forecast_from_anchor predict scaler cfg anchor_time ctx =
          .error (.shapeErrorInput cfg.lookback ctx.length))
    ∧ (ctx.length = cfg.lookback →
        (predict (ctx.map scaler)).length ≠ cfg.offsets.length →
        forecast_from_anchor predict scaler cfg anchor_time ctx =
          .error (.shapeErrorOutput (predict (ctx.map scaler)).length
            cfg.offsets.length))
    ∧ (ctx.length = cfg.lookback →
        (predict (ctx.map scaler)).length = cfg.offsets.length →
        ∃ out, forecast_from_anchor predict scaler cfg anchor_time ctx =
          .ok out) := by
  by_cases h1 : ctx.length = cfg.lookback
  · by_cases h2 : (predict (ctx.map scaler)).length = cfg.offsets.length
    · refine ⟨?_, fun h => absurd h1 h, fun _ h => absurd h2 h,
        fun _ _ => ⟨_, forecast_from_anchor_ok predict scaler cfg
          anchor_time ctx h1 h2⟩⟩
      rw [forecast_from_anchor_ok predict scaler cfg anchor_time ctx h1 h2]
      simp [h1, h2]
    · have he : forecast_from_anchor predict scaler cfg anchor_time ctx =
          .error (.shapeErrorOutput (predict (ctx.map scaler)).length
            cfg.offsets.length) := by
        simp only [forecast_from_anchor, prepare_input, normalize_model_output,
          h1, h2]
        simp [h2]
      exact ⟨by rw [he]; simp [h1, h2], fun h => absurd h1 h, fun _ _ => he,
        fun _ h => absurd h h2⟩
  · have he : forecast_from_anchor predict scaler cfg anchor_time ctx =
        .error (.shapeErrorInput cfg.lookback ctx.length) := by
      simp only [forecast_from_anchor, prepare_input, h1]
      simp [h1]
    exact ⟨by rw [he]; simp [h1], fun _ => he, fun h => absurd h h1,
      fun h => absurd h h1⟩

/-- Witness for `forecast_from_anchor_shape_iff`: a wrong-length context is
rejected with the input shape error, and a matching context with a
matching model output succeeds. -/
theorem forecast_from_anchor_shape_iff_witness :
    forecast_from_anchor (fun _ => [80, 90, 260]) id
      { freq_min := 15, lookback := 3, offsets := [2, 4, 6] } 0 [100] =
      .error (.shapeErrorInput 3 1)
    ∧ ∃ out, forecast_from_anchor (fun _ => [80, 90, 260]) id
        { freq_min := 15, lookback := 3, offsets := [2, 4, 6] } 0
        [100, 110, 120] = .ok out :=
  ⟨(forecast_from_anchor_shape_iff (fun _ => [80, 90, 260]) id
      { freq_min := 15, lookback := 3, offsets := [2, 4, 6] } 0
      [100]).2.1 (by decide),
   (forecast_from_anchor_shape_iff (fun _ => [80, 90, 260]) id
      { freq_min := 15, lookback := 3, offsets := [2, 4, 6] } 0
      [100, 110, 120]).2.2.2 rfl rfl⟩

/-- C1 (divergence witness): with the default configuration
(`lookback = 20`, `offsets = [2,4,6]`), a validated series of exactly
`lookback` points — which the ingestion threshold explicitly admits — is
rejected by anchor selection: the fallback index `len(series) - 1 = 19`
satisfies `19 ≥ lookback - 1`, yet the code's guard compares it against
`lookback` (not `lookback - 1`) and raises "CSV muito curto. Precisa de
pelo menos 20 pontos." even though the series has exactly 20 points.  The
whole upload pipeline therefore fails on a 20-row CSV. -/
theorem anchor_selection_rejects_exact_lookback_series :
    anchorIdx { freq_min := 15, lookback := 20, offsets := [2, 4, 6] } 20 =
      .error (.csvTooShort 20)
    ∧ upload_glucose_session (fun _ => [100, 110, 120]) id
        (fun l => l.mergeSort leTs)
        { freq_min := 15, lookback := 20, offsets := [2, 4, 6] }
        ((List.range 20).map (fun i =>
          { timestamp := some (15 * (i : ℤ)), glucose := some 100
            patient_id := some "p", session_id := some "s" : RawRow })) =
      .error (.csvTooShort 20)
    ∧ ((List.range 20).map (fun i =>
          { timestamp := some (15 * (i : ℤ)), glucose := some 100
            patient_id := some "p", session_id := some "s" : RawRow })).length =
        ({ freq_min := 15, lookback := 20, offsets := [2, 4, 6] } :
          ForecastConfig).lookback :=
  ⟨by with_unfolding_all rfl, by with_unfolding_all rfl, by with_unfolding_all rfl⟩

/-- Weight used by the load-count invariant of the registry model: a caller
contributes one completed load only after reaching `done`. -/
def pcWeight : ThreadPC → Nat
  | .done => 1
  | _ => 0

/-- C9 counterexample: the claim "the load is never performed more than
once" is false — both callers can observe the empty cache before either
assignment, and then both perform the load.  The interleaving
`check1_miss; check2_miss; load1; load2` reaches a state with
`loadCount = 2`. -/
theorem registry_single_flight_violated :
    ¬ (∀ s, registryReachable s → s.loadCount ≤ 1) := by
  intro h
  have h1 : RegistryStep registryInit
      { modelCached := false, loadCount := 0, pc1 := .loading, pc2 := .start } :=
    RegistryStep.check1_miss registryInit rfl rfl
  have h2 : RegistryStep
      { modelCached := false, loadCount := 0, pc1 := .loading, pc2 := .start }
      { modelCached := false, loadCount := 0, pc1 := .loading, pc2 := .loading } :=
    RegistryStep.check2_miss _ rfl rfl
  have h3 : RegistryStep
      { modelCached := false, loadCount := 0, pc1 := .loading, pc2 := .loading }
      { modelCached := true, loadCount := 1, pc1 := .done, pc2 := .loading } :=
    RegistryStep.load1 _ rfl
  have h4 : RegistryStep
      { modelCached := true, loadCount := 1, pc1 := .done, pc2 := .loading }
      { modelCached := true, loadCount := 2, pc1 := .done, pc2 := .done } :=
    RegistryStep.load2 _ rfl
  have hr : registryReachable
      { modelCached := true, loadCount := 2, pc1 := .done, pc2 := .done } :=
    Relation.ReflTransGen.head h1 (Relation.ReflTransGen.head h2
      (Relation.ReflTransGen.head h3 (Relation.ReflTransGen.single h4)))
  have := h _ hr
  simp at this

/-- C9 (amended): without any lock, each concurrent first-caller may perform
its own load — the number of completed loads is bounded only by the number
of racing callers (two in this model), not by one; and a caller whose
`None`-check observes the populated cache proceeds straight to `done`
without loading, reusing the cached artifacts. -/
theorem registry_loads_bounded_and_cache_reused :
    (∀ s, registryReachable s → s.loadCount ≤ 2)
    ∧ (∀ s s', RegistryStep s s' → s.modelCached = true → s.pc2 = .start →
        s'.pc2 ≠ .start →
        s'.pc2 = .done ∧ s'.loadCount = s.loadCount ∧ s'.modelCached = true) := by
  constructor
  · have inv : ∀ s, registryReachable s →
        s.loadCount ≤ pcWeight s.pc1 + pcWeight s.pc2 := by
      intro s hs
      induction hs with
      | refl => simp [registryInit, pcWeight]
      | tail _ hstep ih =>
        cases hstep with
        | check1_hit h1 h2 =>
            rw [h1] at ih
            simp [pcWeight] at ih ⊢
            omega
        | check1_miss h1 h2 =>
            rw [h1] at ih
            simp [pcWeight] at ih ⊢
            omega
        | load1 h1 =>
            rw [h1] at ih
            simp [pcWeight] at ih ⊢
            omega
        | check2_hit h1 h2 =>
            rw [h1] at ih
            simp [pcWeight] at ih ⊢
            omega
        | check2_miss h1 h2 =>
            rw [h1] at ih
            simp [pcWeight] at ih ⊢
            omega
        | load2 h1 =>
            rw [h1] at ih
            simp [pcWeight] at ih ⊢
            omega
    intro s hs
    have := inv s hs
    have w1 : pcWeight s.pc1 ≤ 1 := by cases s.pc1 <;> simp [pcWeight]
    have w2 : pcWeight s.pc2 ≤ 1 := by cases s.pc2 <;> simp [pcWeight]
    omega
  · intro s s' hstep hc hpc hne
    cases hstep with
    | check1_hit h1 h2 => exact absurd hpc hne
    | check1_miss h1 h2 => exact absurd hpc hne
    | load1 h1 => exact absurd hpc hne
    | check2_hit h1 h2 => exact ⟨rfl, rfl, hc⟩
    | check2_miss h1 h2 => rw [hc] at h2; cases h2
    | load2 h1 => rw [hpc] at h1; cases h1

/-- Witness for `registry_loads_bounded_and_cache_reused`: the bound at the
initial state, and a concrete cache-hit step of the second caller from a
state where the first caller has already loaded. -/
theorem registry_loads_bounded_witness :
    registryInit.loadCount ≤ 2
    ∧ (({ modelCached := true, loadCount := 1, pc1 := ThreadPC.done
          pc2 := ThreadPC.done } : RegistryState).pc2 = ThreadPC.done
        ∧ ({ modelCached := true, loadCount := 1, pc1 := ThreadPC.done
             pc2 := ThreadPC.done } : RegistryState).loadCount =
          ({ modelCached := true, loadCount := 1, pc1 := ThreadPC.done
             pc2 := ThreadPC.start } : RegistryState).loadCount
        ∧ ({ modelCached := true, loadCount := 1, pc1 := ThreadPC.done
             pc2 := ThreadPC.done } : RegistryState).modelCached = true) :=
  ⟨registry_loads_bounded_and_cache_reused.1 registryInit
      Relation.ReflTransGen.refl,
   registry_loads_bounded_and_cache_reused.2
      { modelCached := true, loadCount := 1, pc1 := ThreadPC.done
        pc2 := ThreadPC.start } _
      (RegistryStep.check2_hit _ rfl rfl) rfl rfl (by simp)⟩

/-- Rows kept by `drop_duplicates(keep="last")` come from the input frame. -/
theorem mem_of_mem_dropDupKeepLast {l : List CleanRow} {x : CleanRow}
    (hx : x ∈ dropDupKeepLast l) : x ∈ l := by
  induction l with
  | nil => simp [dropDupKeepLast] at hx
  | cons a rest ih =>
    rw [dropDupKeepLast] at hx
    split_ifs at hx with h
    · exact List.mem_cons_of_mem a (ih hx)
    · rcases List.mem_cons.mp hx with h1 | h2
      · exact h1 ▸ List.mem_cons_self a rest
      · exact List.mem_cons_of_mem a (ih h2)

/-- `drop_duplicates` never lengthens the frame. -/
theorem length_dropDupKeepLast_le (l : List CleanRow) :
    (dropDupKeepLast l).length ≤ l.length := by
  induction l with
  | nil => simp [dropDupKeepLast]
  | cons a rest ih =>
    rw [dropDupKeepLast]
    split_ifs with h
    · exact Nat.le_succ_of_le ih
    · simpa using ih

/-- Every timestamp of the input frame survives `drop_duplicates`. -/
theorem exists_dropDupKeepLast_ts {l : List CleanRow} :
    ∀ r ∈ l, ∃ x ∈ dropDupKeepLast l, x.timestamp = r.timestamp := by
  induction l with
  | nil => simp
  | cons a rest ih =>
    intro r hr
    rw [dropDupKeepLast]
    split_ifs with h
    · rcases List.mem_cons.mp hr with h1 | h2
      · subst h1
        obtain ⟨b, hb, hbr⟩ := List.any_eq_true.mp h
        obtain ⟨x, hx, hxb⟩ := ih b hb
        exact ⟨x, hx, hxb.trans (eq_of_beq hbr)⟩
      · exact ih r h2
    · rcases List.mem_cons.mp hr with h1 | h2
      · subst h1
        exact ⟨r, List.mem_cons_self _ _, rfl⟩
      · obtain ⟨x, hx, hxr⟩ := ih r h2
        exact ⟨x, List.mem_cons_of_mem a hx, hxr⟩

/-- On a `≤`-sorted frame, `drop_duplicates(keep="last")` yields strictly
increasing timestamps. -/
theorem dropDupKeepLast_pairwise_lt {l : List CleanRow}
    (hl : l.Pairwise (fun a b => a.timestamp ≤ b.timestamp)) :
    (dropDupKeepLast l).Pairwise (fun a b => a.timestamp < b.timestamp) := by
  induction l with
  | nil => simp [dropDupKeepLast]
  | cons a rest ih =>
    rw [List.pairwise_cons] at hl
    obtain ⟨ha, hrest⟩ := hl
    rw [dropDupKeepLast]
    split_ifs with h
    · exact ih hrest
    · rw [List.pairwise_cons]
      refine ⟨?_, ih hrest⟩
      intro y hy
      have hyr : y ∈ rest := mem_of_mem_dropDupKeepLast hy
      have hle := ha y hyr
      have hne : a.timestamp ≠ y.timestamp := by
        intro hay
        exact h (List.any_eq_true.mpr ⟨y, hyr, by simpa using hay.symm⟩)
      exact lt_of_le_of_ne hle hne

/-- The timestamp comparison is transitive. -/
theorem leTs_trans : ∀ a b c : CleanRow, leTs a b → leTs b c → leTs a c := by
  intro a b c
  simp only [leTs, decide_eq_true_eq]
  omega

/-- The timestamp comparison is total. -/
theorem leTs_total : ∀ a b : CleanRow, leTs a b || leTs b a := by
  intro a b
  simp only [leTs, Bool.or_eq_true, decide_eq_true_eq]
  omega

/-- The modelled `sort_values` output is `≤`-sorted on timestamps. -/
theorem mergeSort_pairwise_le (l : List CleanRow) :
    (l.mergeSort leTs).Pairwise (fun a b => a.timestamp ≤ b.timestamp) := by
  have h : (l.mergeSort leTs).Pairwise (fun a b => leTs a b = true) :=
    List.sorted_mergeSort leTs_trans leTs_total l
  exact h.imp (fun hab => by simpa [leTs] using hab)

/-- The stable merge sort on the timestamp key is one admissible
`sort_values` behaviour (a timestamp-ordered permutation). -/
theorem mergeSort_isSortValuesOutput (df : List CleanRow) :
    isSortValuesOutput df (df.mergeSort leTs) :=
  ⟨List.mergeSort_perm df leTs, mergeSort_pairwise_le df⟩

/-- C4 counterexample: `drop_duplicates(keep="last")` keeps the last
occurrence of the POST-SORT order, and the source's `sort_values` uses the
unstable default `kind='quicksort'`, so which of several equal-timestamp
rows survives is unspecified.  Under the admissible sorted order that
reverses the two equal-timestamp rows (a permutation, ordered by the key),
the surviving row carries glucose 90, not the upload-order-last
occurrence's 95 — refuting "removes duplicate timestamps keeping the last
occurrence" as a guarantee of the program. -/
theorem parse_csv_upload_keep_last_not_guaranteed :
    isSortValuesOutput
      (dropnaRows [⟨some 1, some 90, some "p", some "s"⟩,
                   ⟨some 1, some 95, some "p", some "s"⟩])
      ((dropnaRows [⟨some 1, some 90, some "p", some "s"⟩,
                    ⟨some 1, some 95, some "p", some "s"⟩]).reverse)
    ∧ parse_csv_upload (fun l => l.reverse)
        [⟨some 1, some 90, some "p", some "s"⟩,
         ⟨some 1, some 95, some "p", some "s"⟩] 1 =
        .ok [⟨1, 90, some "p", some "s"⟩]
    ∧ ((dropnaRows [⟨some 1, some 90, some "p", some "s"⟩,
                    ⟨some 1, some 95, some "p", some "s"⟩]).filter
        (fun b => b.timestamp == (1 : ℤ))).getLast? =
        some ⟨1, 95, some "p", some "s"⟩
    ∧ (⟨1, 90, some "p", some "s"⟩ : CleanRow) ≠
        ⟨1, 95, some "p", some "s"⟩ := by
  refine ⟨⟨List.reverse_perm _, by with_unfolding_all decide⟩,
    by with_unfolding_all rfl, by with_unfolding_all rfl,
    by with_unfolding_all decide⟩

/-- C4 (amended): for every uploaded table and every sorting routine
satisfying pandas' documented `sort_values` contract (a timestamp-ordered
permutation of the rows; tie order unspecified since the default quicksort
is unstable), ingestion yields a frame with strictly ascending timestamps
in which exactly one of the input rows bearing each surviving timestamp
remains (every input timestamp survives), fails with
`ValidationError("insufficient points")` whenever fewer than `lookback`
rows remain after sort and dedup, always rejects a table of `lookback - 1`
surviving rows, and a parse error propagates through the upload pipeline
unchanged for every model (`predict`) — no inference happens. -/
theorem parse_csv_upload_sorts_dedups_rejects
    (sortBy : List CleanRow → List CleanRow) (rows : List RawRow)
    (lookback : Nat)
    (hsort : isSortValuesOutput (dropnaRows rows)
      (sortBy (dropnaRows rows))) :
    (∀ out, parse_csv_upload sortBy rows lookback = .ok out →
        out.Pairwise (fun a b => a.timestamp < b.timestamp)
        ∧ (∀ x ∈ out, x ∈ dropnaRows rows)
        ∧ (∀ r ∈ dropnaRows rows, ∃ x ∈ out, x.timestamp = r.timestamp)
        ∧ lookback ≤ out.length)
    ∧ (((dropnaRows rows).filterMap (·.patient_id)).dedup.length = 1 →
       ((dropnaRows rows).filterMap (·.session_id)).dedup.length = 1 →
       (dropDupKeepLast (sortBy (dropnaRows rows))).length < lookback →
       parse_csv_upload sortBy rows lookback =
         .error (.insufficientPoints lookback
           (dropDupKeepLast (sortBy (dropnaRows rows))).length))
    ∧ (((dropnaRows rows).filterMap (·.patient_id)).dedup.length = 1 →
       ((dropnaRows rows).filterMap (·.session_id)).dedup.length = 1 →
       1 ≤ lookback → (dropnaRows rows).length = lookback - 1 →
       ∃ m, m < lookback ∧ parse_csv_upload sortBy rows lookback =
         .error (.insufficientPoints lookback m))
    ∧ (∀ predict scaler (cfg : ForecastConfig) e, cfg.lookback = lookback →
       parse_csv_upload sortBy rows lookback = .error e →
       upload_glucose_session predict scaler sortBy cfg rows = .error e) := by
  refine ⟨?_, ?_, ?_, ?_⟩
  · intro out hout
    simp only [parse_csv_upload] at hout
    split_ifs at hout with hpid hsid hlen
    rw [Except.ok.injEq] at hout
    subst hout
    refine ⟨dropDupKeepLast_pairwise_lt hsort.2, ?_, ?_,
      Nat.le_of_not_lt hlen⟩
    · intro x hx
      exact hsort.1.mem_iff.mp (mem_of_mem_dropDupKeepLast hx)
    · intro r hr
      exact exists_dropDupKeepLast_ts r (hsort.1.mem_iff.mpr hr)
  · intro hpid hsid hlen
    unfold parse_csv_upload
    rw [if_neg (by omega), if_neg (by omega), if_pos hlen]
  · intro hpid hsid hlb hlen
    have hle : (dropDupKeepLast (sortBy (dropnaRows rows))).length <
        lookback := by
      have h1 := length_dropDupKeepLast_le (sortBy (dropnaRows rows))
      have h2 := hsort.1.length_eq
      omega
    refine ⟨_, hle, ?_⟩
    unfold parse_csv_upload
    rw [if_neg (by omega), if_neg (by omega), if_pos hle]
  · intro predict scaler cfg e hcfg herr
    unfold upload_glucose_session
    rw [hcfg, herr]

/-- Witness for `parse_csv_upload_sorts_dedups_rejects`, instantiated with
the stable merge sort (one admissible `sort_values` behaviour): a three-row
upload with a duplicated timestamp is accepted at `lookback = 2` with both
surviving rows drawn from the input; a single-row upload (`lookback - 1`
rows) is rejected, and the rejection passes through the pipeline before the
model is ever consulted. -/
theorem parse_csv_upload_sorts_dedups_rejects_witness :
    (∀ x ∈ ([⟨1, 95, some "p", some "s"⟩, ⟨3, 80, some "p", some "s"⟩] :
        List CleanRow),
       x ∈ dropnaRows [⟨some 3, some 80, some "p", some "s"⟩,
                       ⟨some 1, some 90, some "p", some "s"⟩,
                       ⟨some 1, some 95, some "p", some "s"⟩])
    ∧ (∃ m, m < 2 ∧ parse_csv_upload (fun l => l.mergeSort leTs)
        [⟨some 0, some 100, some "p", some "s"⟩] 2 =
        .error (.insufficientPoints 2 m))
    ∧ upload_glucose_session (fun _ => [100, 110, 120]) id
        (fun l => l.mergeSort leTs)
        { freq_min := 15, lookback := 2, offsets := [2, 4, 6] }
        [⟨some 0, some 100, some "p", some "s"⟩] =
        .error (.insufficientPoints 2 1) := by
  refine ⟨?_, ?_, ?_⟩
  · have h := (parse_csv_upload_sorts_dedups_rejects
      (fun l => l.mergeSort leTs)
      [⟨some 3, some 80, some "p", some "s"⟩,
       ⟨some 1, some 90, some "p", some "s"⟩,
       ⟨some 1, some 95, some "p", some "s"⟩] 2
      (mergeSort_isSortValuesOutput _)).1
      [⟨1, 95, some "p", some "s"⟩, ⟨3, 80, some "p", some "s"⟩]
      (by with_unfolding_all rfl)
    exact h.2.1
  · exact (parse_csv_upload_sorts_dedups_rejects
      (fun l => l.mergeSort leTs)
      [⟨some 0, some 100, some "p", some "s"⟩] 2
      (mergeSort_isSortValuesOutput _)).2.2.1
      (by with_unfolding_all rfl) (by with_unfolding_all rfl)
      (by omega) (by with_unfolding_all rfl)
  · exact (parse_csv_upload_sorts_dedups_rejects
      (fun l => l.mergeSort leTs)
      [⟨some 0, some 100, some "p", some "s"⟩] 2
      (mergeSort_isSortValuesOutput _)).2.2.2
      (fun _ => [100, 110, 120]) id
      { freq_min := 15, lookback := 2, offsets := [2, 4, 6] }
      (.insufficientPoints 2 1) rfl (by with_unfolding_all rfl)

/-- C8: every successfully assembled payload has a non-empty
predicted-points list whose first entry is the synthetic connector — anchor
timestamp (also recorded in the payload meta), the anchor row's own
observed glucose value, tagged `predicted` — and whose remaining entries
are the model's forecast points in offset order, all tagged `predicted`. -/
theorem build_payload_predicted_points (predict : List ℚ → List ℚ)
    (scaler : ℚ → ℚ) (cfg : ForecastConfig) (df : List CleanRow)
    (p : DashboardPayload)
    (h : build_dashboard_payload predict scaler cfg df = .ok p) :
    p.predictedPoints ≠ []
    ∧ (∀ q ∈ p.predictedPoints, q.ptype = "predicted")
    ∧ p.predictedPoints.head?.map (·.timestamp) = some p.anchor_time
    ∧ ∃ a r0 fc,
        anchorIdx cfg df.length = .ok a
        ∧ df.head? = some r0
        ∧ p.predictedPoints.head? = some
            { timestamp := (df.getD a.toNat r0).timestamp
              value_mg_dl := (df.getD a.toNat r0).glucose
              ptype := "predicted" }
        ∧ forecast_from_anchor predict scaler cfg
            (df.getD a.toNat r0).timestamp
            (((df.drop (a.toNat + 1 - cfg.lookback)).take cfg.lookback).map
              (·.glucose)) = .ok fc
        ∧ p.predictedPoints.tail = fc.predicted.map (fun q =>
            { timestamp := q.timestamp, value_mg_dl := q.value_mg_dl
              ptype := "predicted" }) := by
  rcases df with _ | ⟨r0, rest⟩
  · simp [build_dashboard_payload] at h
  · simp only [build_dashboard_payload] at h
    cases ha : anchorIdx cfg (r0 :: rest).length with
    | error e => rw [ha] at h; cases h
    | ok a =>
      rw [ha] at h
      dsimp only at h
      cases hf : forecast_from_anchor predict scaler cfg
          ((r0 :: rest).getD a.toNat r0).timestamp
          ((((r0 :: rest).drop (a.toNat + 1 - cfg.lookback)).take
            cfg.lookback).map (·.glucose)) with
      | error e => rw [hf] at h; cases h
      | ok fc =>
        rw [hf] at h
        rw [Except.ok.injEq] at h
        subst h
        refine ⟨by simp [assemble_payload], ?_, by simp [assemble_payload],
          a, r0, fc, rfl, rfl, by simp [assemble_payload], hf,
          by simp [assemble_payload]⟩
        intro q hq
        simp only [assemble_payload] at hq
        rcases List.mem_cons.mp hq with h1 | h2
        · rw [h1]
        · obtain ⟨w, _, hw⟩ := List.mem_map.mp h2
          rw [← hw]

/-- Witness for `build_payload_predicted_points`: a concrete four-row frame
(`lookback = 2`, `offsets = [1]`) assembles successfully and the claim's
properties hold on its payload. -/
theorem build_payload_predicted_points_witness :
    (match build_dashboard_payload (fun _ => [120]) id
        { freq_min := 15, lookback := 2, offsets := [1] }
        [⟨0, 60, some "p", some "s"⟩, ⟨15, 80, some "p", some "s"⟩,
         ⟨30, 90, some "p", some "s"⟩, ⟨45, 100, some "p", some "s"⟩] with
     | .ok p => p.predictedPoints ≠ []
        ∧ (∀ q ∈ p.predictedPoints, q.ptype = "predicted")
        ∧ p.predictedPoints.head?.map (·.timestamp) = some p.anchor_time
     | .error _ => False) := by
  have hok : (build_dashboard_payload (fun _ => [120]) id
      { freq_min := 15, lookback := 2, offsets := [1] }
      [⟨0, 60, some "p", some "s"⟩, ⟨15, 80, some "p", some "s"⟩,
       ⟨30, 90, some "p", some "s"⟩,
       ⟨45, 100, some "p", some "s"⟩]).isOk = true := by
    with_unfolding_all rfl
  cases hb : build_dashboard_payload (fun _ => [120]) id
      { freq_min := 15, lookback := 2, offsets := [1] }
      [⟨0, 60, some "p", some "s"⟩, ⟨15, 80, some "p", some "s"⟩,
       ⟨30, 90, some "p", some "s"⟩, ⟨45, 100, some "p", some "s"⟩] with
  | error e => rw [hb] at hok; simp [Except.isOk, Except.toBool] at hok
  | ok p =>
    have h := build_payload_predicted_points (fun _ => [120]) id
      { freq_min := 15, lookback := 2, offsets := [1] }
      [⟨0, 60, some "p", some "s"⟩, ⟨15, 80, some "p", some "s"⟩,
       ⟨30, 90, some "p", some "s"⟩, ⟨45, 100, some "p", some "s"⟩] p hb
    exact ⟨h.1, h.2.1, h.2.2.1⟩

/-- C10: the prediction-alert scan in `_build_dashboard_payload` ranges over
the full predicted-points list including the synthetic connector point, so
for every successfully assembled payload, an anchor row with observed value
below 70 puts the prediction hypoglycemia alert in the payload's alerts and
an anchor value above 250 puts the prediction glycemic-peak alert there —
regardless of the model's forecast values. -/
theorem build_payload_connector_in_alert_scan (predict : List ℚ → List ℚ)
    (scaler : ℚ → ℚ) (cfg : ForecastConfig) (df : List CleanRow)
    (p : DashboardPayload)
    (h : build_dashboard_payload predict scaler cfg df = .ok p) :
    ∀ a r0, anchorIdx cfg df.length = .ok a → df.head? = some r0 →
      ((df.getD a.toNat r0).glucose < 70 → alertPredHypo ∈ p.alerts)
      ∧ (250 < (df.getD a.toNat r0).glucose → alertPredPeak ∈ p.alerts) := by
  rcases df with _ | ⟨r0', rest⟩
  · simp [build_dashboard_payload] at h
  · simp only [build_dashboard_payload] at h
    cases ha : anchorIdx cfg (r0' :: rest).length with
    | error e => rw [ha] at h; cases h
    | ok a' =>
      rw [ha] at h
      dsimp only at h
      cases hf : forecast_from_anchor predict scaler cfg
          ((r0' :: rest).getD a'.toNat r0').timestamp
          ((((r0' :: rest).drop (a'.toNat + 1 - cfg.lookback)).take
            cfg.lookback).map (·.glucose)) with
      | error e => rw [hf] at h; cases h
      | ok fc =>
        rw [hf] at h
        rw [Except.ok.injEq] at h
        subst h
        intro a r0 haeq hr0
        rw [Except.ok.injEq] at haeq
        simp only [List.head?_cons, Option.some.injEq] at hr0
        subst haeq
        subst hr0
        constructor
        · intro hlow
          have hany : (((assemble_payload cfg (r0' :: rest) r0' a'.toNat
              fc).predictedPoints).map (·.value_mg_dl)).any
                (fun v => decide (v < 70)) = true := by
            apply List.any_eq_true.mpr
            refine ⟨((r0' :: rest).getD a'.toNat r0').glucose, ?_, by simpa using hlow⟩
            simp [assemble_payload]
          simp only [assemble_payload] at hany ⊢
          rw [if_pos hany]
          exact List.mem_append.mpr (Or.inl (List.mem_append.mpr (Or.inl
            (List.mem_cons_self _ _))))
        · intro hhigh
          have hany : (((assemble_payload cfg (r0' :: rest) r0' a'.toNat
              fc).predictedPoints).map (·.value_mg_dl)).any
                (fun v => decide (250 < v)) = true := by
            apply List.any_eq_true.mpr
            refine ⟨((r0' :: rest).getD a'.toNat r0').glucose, ?_, by simpa using hhigh⟩
            simp [assemble_payload]
          simp only [assemble_payload] at hany ⊢
          rw [if_pos hany]
          exact List.mem_append.mpr (Or.inl (List.mem_append.mpr (Or.inr
            (List.mem_cons_self _ _))))

/-- Witness for `build_payload_connector_in_alert_scan`: the anchor row's
observed value is 60 and the only model forecast value is 100 (inside
`[70, 250]`), yet the prediction hypoglycemia alert is emitted, because the
scan includes the connector point. -/
theorem build_payload_connector_in_alert_scan_witness :
    (match build_dashboard_payload (fun _ => [100]) id
        { freq_min := 15, lookback := 2, offsets := [1] }
        [⟨0, 100, some "p", some "s"⟩, ⟨15, 100, some "p", some "s"⟩,
         ⟨30, 60, some "p", some "s"⟩, ⟨45, 100, some "p", some "s"⟩] with
     | .ok p => alertPredHypo ∈ p.alerts
     | .error _ => False) := by
  have hok : (build_dashboard_payload (fun _ => [100]) id
      { freq_min := 15, lookback := 2, offsets := [1] }
      [⟨0, 100, some "p", some "s"⟩, ⟨15, 100, some "p", some "s"⟩,
       ⟨30, 60, some "p", some "s"⟩,
       ⟨45, 100, some "p", some "s"⟩]).isOk = true := by
    with_unfolding_all rfl
  cases hb : build_dashboard_payload (fun _ => [100]) id
      { freq_min := 15, lookback := 2, offsets := [1] }
      [⟨0, 100, some "p", some "s"⟩, ⟨15, 100, some "p", some "s"⟩,
       ⟨30, 60, some "p", some "s"⟩, ⟨45, 100, some "p", some "s"⟩] with
  | error e => rw [hb] at hok; simp [Except.isOk, Except.toBool] at hok
  | ok p =>
    have h := build_payload_connector_in_alert_scan (fun _ => [100]) id
      { freq_min := 15, lookback := 2, offsets := [1] }
      [⟨0, 100, some "p", some "s"⟩, ⟨15, 100, some "p", some "s"⟩,
       ⟨30, 60, some "p", some "s"⟩, ⟨45, 100, some "p", some "s"⟩] p hb
      2 ⟨0, 100, some "p", some "s"⟩ (by with_unfolding_all rfl) rfl
    exact h.1 (by with_unfolding_all decide)
